import Mathlib

/-!
Verification development for the `calamari-ctl` setup tool
(`cthulhu/cthulhu/calamari_ctl.py`).

The tool is a one-shot provisioning pipeline.  We embed its observable
behaviour shallowly: each command (`initialize`, `clear`) and each helper
(`run_local_salt`, the `quiet` output-suppression wrapper, the failure
reporter in `main`) becomes a pure Lean function over an explicit world
state.  Side effects (log writes, subprocess spawns, schema operations,
file writes) are recorded as an ordered event trace; a raised Python
exception is an `Option CtlError` result.  External collaborators
(the salt subprocess, the OS account directory, Django management
commands) are inputs of the world: the salt child process is a function
from the SLS path to its (exit code, stdout, stderr); Django management
commands are modelled as non-raising trace events, since their internals
are outside this repository.
-/

namespace Calamari

/-- Module-level constant `ALEMBIC_TABLE = 'alembic_version'`. -/
def ALEMBIC_TABLE : String := "alembic_version"

/-- Module-level constant `POSTGRES_SLS`. -/
def POSTGRES_SLS : String := "/opt/calamari/salt-local/postgres.sls"

/-- Module-level constant `SERVICES_SLS`. -/
def SERVICES_SLS : String := "/opt/calamari/salt-local/services.sls"

/-- Module-level constant `RELAX_SALT_PERMS_SLS`. -/
def RELAX_SALT_PERMS_SLS : String := "/opt/calamari/salt-local/relax_salt_perms.sls"

/-- A Python exception escaping one of the commands.  `runtimeError` is the
`RuntimeError(msg)` raised by `run_local_salt`; `keyError` is the `KeyError`
raised by `pwd.getpwnam` when the named OS account does not exist. -/
inductive CtlError where
  | runtimeError (msg : String)
  | keyError (name : String)
deriving Repr, DecidableEq

/-- An observable action of the tool, in program order. -/
inductive Event where
  | logInfo (msg : String)
  | logDebug (msg : String)
  | logWarn (msg : String)
  | logError (msg : String)
  /-- `open(secret_key_path, 'w').write(...)` -/
  | writeSecret (contents : String)
  /-- `subprocess.Popen(["salt-call", "--local", "state.template", sls], ...)` -/
  | spawnSalt (sls : String)
  /-- `command.upgrade(alembic_config, "head")`: the only operation that
  replays historical migration steps. -/
  | upgradeHead
  /-- `Base.metadata.create_all(engine)` -/
  | createAll
  /-- `command.stamp(alembic_config, "head")` -/
  | stampHead
  /-- `execute_from_command_line(["", "syncdb", "--noinput"])` -/
  | syncdb
  /-- `user_model.objects.create_superuser(...)` (non-interactive) -/
  | createSuperuser (username password email : String)
  /-- `execute_from_command_line(["", "createsuperuser"])` (interactive) -/
  | interactiveCreateSuperuser
  /-- `execute_from_command_line(["", "collectstatic", "--noinput"])` -/
  | collectStatic
  /-- `os.chown(path, uid, gid)` -/
  | chown (path : String) (uid gid : Nat)
  /-- `subprocess.call(['supervisorctl', 'restart', 'cthulhu'], ...)`;
  the exit code is returned by the environment and discarded by the code. -/
  | restartCall (rc : Int)
  /-- `Base.metadata.drop_all(engine)` (checkfirst semantics: drops the
  declared tables that exist, never raises for absent ones). -/
  | dropAllTables
  /-- `Base.metadata.tables[name].drop(engine)` (unchecked single drop). -/
  | dropTable (name : String)
deriving Repr, DecidableEq

/-- The migration state distinguished by the detector (spec section 4.4). -/
inductive MigrationState where
  | FRESH
  | EXISTING
deriving Repr, DecidableEq

/-- The Migration State Detector: `ALEMBIC_TABLE in Base.metadata.tables`
after reflecting the schema store. -/
def detect (tables : List String) : MigrationState :=
  if ALEMBIC_TABLE ∈ tables then .EXISTING else .FRESH

/-- The environment behind `run_local_salt`: which files exist on disk, and
for each SLS path the (exit code, stdout, stderr) of the salt child process. -/
structure SaltEnv where
  existingFiles : List String
  run : String → Int × String × String

/-- `run_local_salt(sls, message)`: skip with a DEBUG log if the SLS file is
absent; otherwise spawn salt, log its stdout and stderr at DEBUG, and raise
`RuntimeError` if the exit code is non-zero.  Returns the event trace and
the raised exception, if any. -/
def run_local_salt (env : SaltEnv) (sls message : String) :
    List Event × Option CtlError :=
  if sls ∈ env.existingFiles then
    let r := env.run sls
    let rc := r.1
    let out := r.2.1
    let err := r.2.2
    ([.logInfo ("Starting/enabling " ++ message ++ "..."),
      .spawnSalt sls,
      .logDebug (message ++ " salt stdout: " ++ out),
      .logDebug (message ++ " salt stderr: " ++ err)],
     if rc = 0 then none
     else some (.runtimeError
       ("salt-call for " ++ message ++ " failed with rc=" ++ toString rc)))
  else
    ([.logDebug ("Skipping " ++ message ++ " configuration, SLS not found")],
     none)

/-- Where a process output stream currently points: the process-original
stream (`sys.__stdout__` / `sys.__stderr__`) or an in-memory `StringIO`
buffer holding what was written into it. -/
inductive StreamTarget where
  | original
  | buffer (contents : String)
deriving Repr, DecidableEq

/-- The pair of current output targets (`sys.stdout`, `sys.stderr`). -/
structure Streams where
  out : StreamTarget
  err : StreamTarget
deriving Repr, DecidableEq

/-- The behaviour of the call wrapped by `quiet()`: whether it raises, and
what it writes to stdout and stderr while running. -/
structure QuietBody where
  raises : Bool
  outWritten : String
  errWritten : String

/-- The `quiet()` context manager: swap both streams to fresh buffers, run
the body; on exception, `log.error` both buffer contents and re-raise; in
all cases the `finally` block restores `sys.__stdout__` / `sys.__stderr__`.
Returns the streams after exit, the error-log events emitted, and whether
the exception propagates. -/
def quiet (_s : Streams) (body : QuietBody) : Streams × List Event × Bool :=
  if body.raises then
    (⟨.original, .original⟩,
     [.logError body.outWritten, .logError body.errWritten],
     true)
  else
    (⟨.original, .original⟩, [], false)

/-- The configuration values `initialize` and `clear` read from
`CalamariConfig`. -/
structure Config where
  secret_key_path : String
  db_path : String
  username : String
  log_path : String
  db_engine : String
  db_name : String
deriving Repr, DecidableEq

/-- A Django account row, as far as this tool observes it. -/
structure Account where
  username : String
  password : String
  email : String
deriving Repr, DecidableEq

/-- `initialize`-command flags `--admin-username`, `--admin-password` and
`--admin-email`, each `None` when not supplied. -/
structure Args where
  admin_username : Option String
  admin_password : Option String
  admin_email : Option String
deriving Repr, DecidableEq

/-- Python truthiness of an optional string flag: `None` and `""` are falsy. -/
def truthy : Option String → Bool
  | none => false
  | some s => !(s == "")

/-- The world state `initialize` runs against. -/
structure InitWorld where
  config : Config
  /-- `os.path.exists(secret_key_path)` -/
  secretExists : Bool
  /-- contents of the secret-key file (meaningful when it exists) -/
  secretContents : String
  /-- the value `get_random_string(50, chars)` would produce this run -/
  randomSecret : String
  saltEnv : SaltEnv
  /-- tables present in the cthulhu schema store (what `reflect` sees) -/
  dbTables : List String
  /-- tables declared on `Base.metadata` by the imported model classes -/
  declaredTables : List String
  /-- Django accounts existing in the web database -/
  accounts : List Account
  /-- the account the interactive `createsuperuser` flow would create -/
  interactiveAccount : Account
  /-- `pwd.getpwnam(config username)`: `(pw_uid, pw_gid)` or absent -/
  pwLookup : Option (Nat × Nat)
  /-- exit code of `supervisorctl restart cthulhu` -/
  restartExit : Int

/-- The accounts named `u`: `user_model.objects.filter(username=u)`. -/
def usersNamed (accounts : List Account) (u : String) : List Account :=
  accounts.filter (fun a => a.username == u)

/-- Step 2 of `initialize`: generate and persist the secret key only when
the file is absent (`if not os.path.exists(...)`). -/
def secretStep (w : InitWorld) : InitWorld × List Event :=
  if w.secretExists then (w, [])
  else ({ w with secretExists := true, secretContents := w.randomSecret },
        [.writeSecret w.randomSecret])

/-- Step 4 of `initialize`, events: upgrade forward when the version-marker
table exists, otherwise create the full schema and stamp head. -/
def dbStepEvents (tables : List String) : List Event :=
  match detect tables with
  | .EXISTING => [.logInfo "Updating database...", .upgradeHead]
  | .FRESH => [.logInfo "Initializing database...", .createAll, .stampHead]

/-- Step 4 of `initialize`, resulting store: `create_all` creates the
declared tables and `stamp` creates the version-marker table; the upgrade
path delegates to the migration engine (modelled as leaving the reflected
catalog as-is). -/
def dbStepTables (tables declared : List String) : List String :=
  match detect tables with
  | .EXISTING => tables
  | .FRESH => tables ++ declared ++ [ALEMBIC_TABLE]

/-- Python truthiness of
`args.admin_username and args.admin_password and args.admin_email`. -/
def allAdminFlags (args : Args) : Bool :=
  truthy args.admin_username && truthy args.admin_password &&
    truthy args.admin_email

/-- Step 6 of `initialize`, resulting accounts: with all three flags, create
the named superuser only when no account with that username exists;
otherwise run the interactive flow only when zero accounts exist. -/
def accountStepAccounts (accounts : List Account) (args : Args)
    (interactive : Account) : List Account :=
  if allAdminFlags args then
    if (usersNamed accounts (args.admin_username.getD "")).isEmpty then
      accounts ++
        [⟨args.admin_username.getD "", args.admin_password.getD "",
          args.admin_email.getD ""⟩]
    else accounts
  else
    if accounts.length = 0 then accounts ++ [interactive] else accounts

/-- Step 6 of `initialize`, events. -/
def accountStepEvents (accounts : List Account) (args : Args) : List Event :=
  if allAdminFlags args then
    if (usersNamed accounts (args.admin_username.getD "")).isEmpty then
      [.logInfo ("Creating user " ++ args.admin_username.getD ""),
       .createSuperuser (args.admin_username.getD "")
         (args.admin_password.getD "") (args.admin_email.getD "")]
    else []
  else
    if accounts.length = 0 then
      [.logInfo "You will now be prompted for login details for the administrative user account.",
       .interactiveCreateSuperuser]
    else []

/-- Python `str.endswith`: the suffix test on the character sequences. -/
def endsWithStr (s suffix : String) : Bool :=
  suffix.data.isSuffixOf s.data

/-- Step 8 of `initialize`: chown the web log file, and additionally the
SQLite database file when the configured engine ends in `sqlite3`. -/
def chownEvents (cfg : Config) (pg : Nat × Nat) : List Event :=
  [.chown cfg.log_path pg.1 pg.2] ++
    (if endsWithStr cfg.db_engine "sqlite3" then
       [.chown cfg.db_name pg.1 pg.2]
     else [])

/-- The `initialize` command.  Returns the world after the run, the ordered
event trace, and the escaping exception if any step raised.  State mutations
performed before a raising step persist, as they do in the Python process. -/
def initializeCmd (w : InitWorld) (args : Args) :
    InitWorld × List Event × Option CtlError :=
  let ev0 : List Event := [.logInfo "Loading configuration.."]
  -- step 2: generate the secret key only when the file is absent
  let w1 : InitWorld := (secretStep w).1
  let ev1 : List Event := (secretStep w).2
  -- step 3: the two salt invocations
  let rA := run_local_salt w.saltEnv RELAX_SALT_PERMS_SLS "salt"
  if rA.2.isSome then (w1, ev0 ++ ev1 ++ rA.1, rA.2)
  else
    let rB := run_local_salt w.saltEnv POSTGRES_SLS "postgres"
    if rB.2.isSome then (w1, ev0 ++ ev1 ++ rA.1 ++ rB.1, rB.2)
    else
      -- step 4: reflect and branch on the migration state
      let dbEvs : List Event := dbStepEvents w.dbTables
      let w2 : InitWorld :=
        { w1 with dbTables := dbStepTables w.dbTables w.declaredTables }
      -- step 5: `syncdb --noinput` under quiet()
      let syncEvs : List Event := [.syncdb]
      let webEvs : List Event := [.logInfo "Initializing web interface..."]
      -- step 6: admin-account policy
      let acctEvs : List Event := accountStepEvents w2.accounts args
      let w3 : InitWorld :=
        { w2 with accounts :=
            accountStepAccounts w2.accounts args w.interactiveAccount }
      -- step 7: `collectstatic --noinput` under quiet()
      let staticEvs : List Event := [.collectStatic]
      let evPre : List Event :=
        ev0 ++ ev1 ++ rA.1 ++ rB.1 ++ dbEvs ++ syncEvs ++ webEvs ++
          acctEvs ++ staticEvs
      -- step 8: ownership fix-up; `pwd.getpwnam` raises KeyError if absent
      match w.pwLookup with
      | none => (w3, evPre, some (.keyError w.config.username))
      | some pg =>
        let chEvs : List Event := chownEvents w.config pg
        -- step 9: start/enable services
        let rC := run_local_salt w.saltEnv SERVICES_SLS "services"
        if rC.2.isSome then (w3, evPre ++ chEvs ++ rC.1, rC.2)
        else
          -- step 10: best-effort supervisor restart; exit code discarded
          (w3,
           evPre ++ chEvs ++ rC.1 ++
             [.logInfo "Restarting services...",
              .restartCall w.restartExit,
              .logInfo "Complete."],
           none)

/-- The world state `clear` runs against. -/
structure ClearWorld where
  config : Config
  dbTables : List String
  declaredTables : List String
deriving Repr, DecidableEq

/-- A single unchecked `Table.drop(engine)`: raises when the table is absent
from the store.  In `clear` this is only ever reached under the membership
guard. -/
def tableDrop (db : List String) (t : String) :
    List String × Option CtlError :=
  if t ∈ db then (db.filter (fun x => !(x == t)), none)
  else (db, some (.runtimeError ("no such table: " ++ t)))

/-- The `clear` command: without `--yes-i-am-sure`, warn and return; with it,
`drop_all` the declared tables, re-reflect, and drop the alembic version
table only if it is still present. -/
def clear (w : ClearWorld) (yes_i_am_sure : Bool) :
    ClearWorld × List Event × Option CtlError :=
  if !yes_i_am_sure then
    (w,
     [.logWarn "This will remove all stored Calamari monitoring status and history.  Use --yes-i-am-sure to proceed"],
     none)
  else
    let db1 := w.dbTables.filter (fun t => !(w.declaredTables.contains t))
    if ALEMBIC_TABLE ∈ db1 then
      let r := tableDrop db1 ALEMBIC_TABLE
      ({ w with dbTables := r.1 },
       [.logInfo "Loading configuration..", .logInfo "Dropping tables",
        .dropAllTables, .dropTable ALEMBIC_TABLE,
        .logInfo "Complete.  Now run initialize"],
       r.2)
    else
      ({ w with dbTables := db1 },
       [.logInfo "Loading configuration..", .logInfo "Dropping tables",
        .dropAllTables, .logInfo "Complete.  Now run initialize"],
       none)

/-- The schema-store contents left behind by a confirmed `clear` run: the
declared tables are dropped by `drop_all`, and the alembic version table is
dropped by the guarded unchecked drop. -/
def survivingTables (w : ClearWorld) : List String :=
  (w.dbTables.filter (fun t => !(w.declaredTables.contains t))).filter
    (fun x => !(x == ALEMBIC_TABLE))

/-- A value of the JSON object written by the failure reporter. -/
inductive JVal where
  | str (s : String)
  | arr (xs : List String)
deriving Repr, DecidableEq

/-- The debug-file path built in `main`:
`"/tmp/{0}.txt".format(time.strftime("%Y-%m-%d_%H%M", time.gmtime()))`.
`timestamp` is the already-formatted UTC minute string. -/
def debug_filename (timestamp : String) : String :=
  "/tmp/" ++ timestamp ++ ".txt"

/-- The debug-file path as the spec describes it
(`/tmp/<toolname>.<UTC timestamp, minute precision>.txt`); stated from the
spec words for comparison with `debug_filename`. -/
def spec_debug_filename (toolname timestamp : String) : String :=
  "/tmp/" ++ toolname ++ "." ++ timestamp ++ ".txt"

/-- `traceback.format_exc()` for the escaped exception. -/
def format_exc : CtlError → String
  | .runtimeError m => "RuntimeError: " ++ m
  | .keyError n => "KeyError: " ++ n

/-- The structured content of the debug file:
`{'argv': sys.argv, 'log': <verbose log>, 'backtrace': <format_exc>}`. -/
def debug_bundle (argv : List String) (logContents backtrace : String) :
    List (String × JVal) :=
  [("argv", .arr argv), ("log", .str logContents), ("backtrace", .str backtrace)]

/-- The `except:` handler of `main`: when a subcommand run escapes with an
exception, write the debug bundle to the timestamped file; otherwise write
nothing.  Returns `(path, content)` of the written file, if any. -/
def main_handler (result : Option CtlError) (argv : List String)
    (logContents timestamp : String) :
    Option (String × List (String × JVal)) :=
  match result with
  | none => none
  | some e =>
    some (debug_filename timestamp,
          debug_bundle argv logContents (format_exc e))

/-- Events that mutate the cthulhu schema store in the migration branch. -/
def isDbEvent : Event → Bool
  | .upgradeHead => true
  | .createAll => true
  | .stampHead => true
  | _ => false

/-- The subtrace of migration-branch schema operations. -/
def dbEventsOf (tr : List Event) : List Event :=
  tr.filter isDbEvent

/-- Log-sink events (what the Diagnostic Logger receives). -/
def isLogEvent : Event → Bool
  | .logInfo _ => true
  | .logDebug _ => true
  | .logWarn _ => true
  | .logError _ => true
  | _ => false

/-- The subtrace of log messages. -/
def logsOf (tr : List Event) : List Event :=
  tr.filter isLogEvent

/-- Secret-key file writes in a trace. -/
def isWriteSecret : Event → Bool
  | .writeSecret _ => true
  | _ => false

/-- A configuration instance used for concrete witness runs. -/
def sampleConfig : Config :=
  { secret_key_path := "/etc/calamari/secret.txt"
    db_path := "sqlite:////var/lib/cthulhu.db"
    username := "apache"
    log_path := "/var/log/calamari/calamari.log"
    db_engine := "django.db.backends.sqlite3"
    db_name := "/var/lib/calamari/db.sqlite3" }

/-- A salt environment in which no SLS file exists (the reduced development
environment): every salt step is skipped. -/
def noSaltEnv : SaltEnv := ⟨[], fun _ => (0, "", "")⟩

/-- A concrete world used by the witness runs: secret present, empty schema
store, no accounts, OS account present, salt files absent. -/
def sampleWorld : InitWorld :=
  { config := sampleConfig
    secretExists := true
    secretContents := "oldsecret"
    randomSecret := "freshsecret"
    saltEnv := noSaltEnv
    dbTables := []
    declaredTables := ["sync_objects", "servers", "services", "events"]
    accounts := []
    interactiveAccount := ⟨"root", "rootpw", "root@example.com"⟩
    pwLookup := some (48, 48)
    restartExit := 0 }

/-- A salt environment whose only file is `f.sls` and whose child process
exits 1 with stdout `OUT-A`. -/
def saltEnvOutA : SaltEnv := ⟨["f.sls"], fun _ => (1, "OUT-A", "ERR")⟩

/-- Same as `saltEnvOutA` except the child writes stdout `OUT-B`. -/
def saltEnvOutB : SaltEnv := ⟨["f.sls"], fun _ => (1, "OUT-B", "ERR")⟩

-- ======================================================================
-- Helper lemmas
-- ======================================================================

theorem dbEventsOf_append (l1 l2 : List Event) :
    dbEventsOf (l1 ++ l2) = dbEventsOf l1 ++ dbEventsOf l2 :=
  List.filter_append ..

theorem logsOf_append (l1 l2 : List Event) :
    logsOf (l1 ++ l2) = logsOf l1 ++ logsOf l2 :=
  List.filter_append ..

/-- The trace of a salt step consists of log messages and the spawn event
only. -/
theorem mem_salt_trace (env : SaltEnv) (sls msg : String) :
    ∀ x ∈ (run_local_salt env sls msg).1,
      isLogEvent x = true ∨ x = .spawnSalt sls := by
  intro x hx
  unfold run_local_salt at hx
  split at hx
  · simp at hx
    rcases hx with h | h | h | h <;> subst h <;> simp [isLogEvent]
  · simp at hx
    subst hx
    simp [isLogEvent]

theorem salt_dbEventsOf (env : SaltEnv) (sls msg : String) :
    dbEventsOf (run_local_salt env sls msg).1 = [] := by
  unfold dbEventsOf run_local_salt
  split <;> simp [isDbEvent]

theorem salt_no_writeSecret (env : SaltEnv) (sls msg : String) :
    (run_local_salt env sls msg).1.any isWriteSecret = false := by
  unfold run_local_salt
  split <;> simp [isWriteSecret]

theorem salt_no_interactive (env : SaltEnv) (sls msg : String) :
    Event.interactiveCreateSuperuser ∉ (run_local_salt env sls msg).1 := by
  unfold run_local_salt
  split <;> simp

theorem salt_no_createSuperuser (env : SaltEnv) (sls msg : String)
    (u p e : String) :
    Event.createSuperuser u p e ∉ (run_local_salt env sls msg).1 := by
  unfold run_local_salt
  split <;> simp

theorem secretStep_accounts (w : InitWorld) :
    (secretStep w).1.accounts = w.accounts := by
  unfold secretStep
  by_cases hs : w.secretExists <;> simp [hs]

theorem secretStep_saltEnv (w : InitWorld) :
    (secretStep w).1.saltEnv = w.saltEnv := by
  unfold secretStep
  by_cases hs : w.secretExists <;> simp [hs]

theorem secretStep_interactiveAccount (w : InitWorld) :
    (secretStep w).1.interactiveAccount = w.interactiveAccount := by
  unfold secretStep
  by_cases hs : w.secretExists <;> simp [hs]

theorem secretStep_secretContents (w : InitWorld) :
    (secretStep w).1.secretContents =
      (if w.secretExists then w.secretContents else w.randomSecret) := by
  unfold secretStep
  by_cases hs : w.secretExists <;> simp [hs]

theorem secretStep_any_write (w : InitWorld) :
    (secretStep w).2.any isWriteSecret = !w.secretExists := by
  unfold secretStep
  by_cases hs : w.secretExists <;> simp [hs, isWriteSecret]

theorem secretStep_db (w : InitWorld) :
    dbEventsOf (secretStep w).2 = [] := by
  unfold secretStep dbEventsOf
  by_cases hs : w.secretExists <;> simp [hs, isDbEvent]

theorem secretStep_no_interactive (w : InitWorld) :
    Event.interactiveCreateSuperuser ∉ (secretStep w).2 := by
  unfold secretStep
  by_cases hs : w.secretExists <;> simp [hs]

theorem secretStep_no_createSuperuser (w : InitWorld) (u p e : String) :
    Event.createSuperuser u p e ∉ (secretStep w).2 := by
  unfold secretStep
  by_cases hs : w.secretExists <;> simp [hs]

theorem dbStepEvents_db (tables : List String) :
    dbEventsOf (dbStepEvents tables) =
      (match detect tables with
       | .EXISTING => [Event.upgradeHead]
       | .FRESH => [Event.createAll, Event.stampHead]) := by
  unfold dbStepEvents dbEventsOf
  cases detect tables <;> simp [isDbEvent]

theorem dbStepEvents_any_write (tables : List String) :
    (dbStepEvents tables).any isWriteSecret = false := by
  unfold dbStepEvents
  cases detect tables <;> simp [isWriteSecret]

theorem dbStepEvents_no_interactive (tables : List String) :
    Event.interactiveCreateSuperuser ∉ dbStepEvents tables := by
  unfold dbStepEvents
  cases detect tables <;> simp

theorem dbStepEvents_no_createSuperuser (tables : List String)
    (u p e : String) :
    Event.createSuperuser u p e ∉ dbStepEvents tables := by
  unfold dbStepEvents
  cases detect tables <;> simp

theorem accountStepEvents_db (accounts : List Account) (args : Args) :
    dbEventsOf (accountStepEvents accounts args) = [] := by
  unfold accountStepEvents dbEventsOf
  split_ifs <;> simp [isDbEvent]

theorem accountStepEvents_any_write (accounts : List Account) (args : Args) :
    (accountStepEvents accounts args).any isWriteSecret = false := by
  unfold accountStepEvents
  split_ifs <;> simp [isWriteSecret]

theorem accountStepEvents_interactive (accounts : List Account) (args : Args) :
    (Event.interactiveCreateSuperuser ∈ accountStepEvents accounts args) ↔
      (allAdminFlags args = false ∧ accounts.length = 0) := by
  unfold accountStepEvents
  split_ifs <;> simp_all [Bool.not_eq_true]

theorem chownEvents_db (cfg : Config) (pg : Nat × Nat) :
    dbEventsOf (chownEvents cfg pg) = [] := by
  unfold chownEvents dbEventsOf
  split_ifs <;> simp [isDbEvent]

theorem chownEvents_any_write (cfg : Config) (pg : Nat × Nat) :
    (chownEvents cfg pg).any isWriteSecret = false := by
  unfold chownEvents
  split_ifs <;> simp [isWriteSecret]

theorem chownEvents_no_interactive (cfg : Config) (pg : Nat × Nat) :
    Event.interactiveCreateSuperuser ∉ chownEvents cfg pg := by
  unfold chownEvents
  split_ifs <;> simp

theorem chownEvents_no_createSuperuser (cfg : Config) (pg : Nat × Nat)
    (u p e : String) :
    Event.createSuperuser u p e ∉ chownEvents cfg pg := by
  unfold chownEvents
  split_ifs <;> simp

-- ======================================================================
-- Claim theorems
-- ======================================================================

/-- A confirmed `clear` run leaves exactly the non-declared, non-alembic
tables in the store, whether or not the alembic table was present. -/
theorem clear_state (v : ClearWorld) :
    (clear v true).1 = { v with dbTables := survivingTables v } := by
  unfold clear
  simp only [Bool.not_true, Bool.false_eq_true, if_false]
  by_cases h :
      ALEMBIC_TABLE ∈ v.dbTables.filter (fun t => !(v.declaredTables.contains t))
  · rw [if_pos h]
    unfold tableDrop
    rw [if_pos h]
    rfl
  · rw [if_neg h]
    have hQ : (v.dbTables.filter (fun t => !(v.declaredTables.contains t))).filter
        (fun x => !(x == ALEMBIC_TABLE)) =
        v.dbTables.filter (fun t => !(v.declaredTables.contains t)) := by
      rw [List.filter_eq_self]
      intro a ha
      simp only [Bool.not_eq_true', beq_eq_false_iff_ne, ne_eq]
      intro hEq
      exact h (hEq ▸ ha)
    show ({ v with dbTables :=
        v.dbTables.filter (fun t => !(v.declaredTables.contains t)) } : ClearWorld) =
      { v with dbTables := survivingTables v }
    unfold survivingTables
    rw [hQ]

/-- A confirmed `clear` on a store whose tables are already disjoint from
the declared tables and lack the alembic table is a pure no-op. -/
theorem clear_noop (v : ClearWorld)
    (hfix : v.dbTables.filter (fun t => !(v.declaredTables.contains t)) =
      v.dbTables)
    (hnot : ALEMBIC_TABLE ∉ v.dbTables) :
    clear v true =
      (v, [.logInfo "Loading configuration..", .logInfo "Dropping tables",
           .dropAllTables, .logInfo "Complete.  Now run initialize"], none) := by
  unfold clear
  simp only [Bool.not_true, Bool.false_eq_true, if_false]
  rw [hfix, if_neg hnot]

/-- A second confirmed `clear` run is a no-op that raises nothing and never
reaches the unchecked alembic-table drop. -/
theorem clear_second_run (w : ClearWorld) :
    clear (clear w true).1 true =
      ((clear w true).1,
       [.logInfo "Loading configuration..", .logInfo "Dropping tables",
        .dropAllTables, .logInfo "Complete.  Now run initialize"],
       none) := by
  rw [clear_state w]
  apply clear_noop
  · show (survivingTables w).filter (fun t => !(w.declaredTables.contains t)) =
      survivingTables w
    rw [List.filter_eq_self]
    intro a ha
    exact (List.mem_filter.mp (List.mem_filter.mp ha).1).2
  · show ALEMBIC_TABLE ∉ survivingTables w
    intro hmem
    have := (List.mem_filter.mp hmem).2
    simp at this

/-- C4: without the confirmation flag, `clear` emits a warning and performs
no destructive action (the state is unchanged and no exception is raised);
and after one confirmed run, a second confirmed run succeeds without
raising even though all objects, including the version-marker table, are
already absent: it changes nothing and never reaches the unchecked
version-marker drop. -/
theorem clear_fail_safe_and_idempotent (w : ClearWorld) :
    clear w false =
      (w,
       [.logWarn "This will remove all stored Calamari monitoring status and history.  Use --yes-i-am-sure to proceed"],
       none)
    ∧ (clear (clear w true).1 true).2.2 = none
    ∧ (clear (clear w true).1 true).1 = (clear w true).1
    ∧ Event.dropTable ALEMBIC_TABLE ∉ (clear (clear w true).1 true).2.1 := by
  refine ⟨rfl, ?_, ?_, ?_⟩
  · rw [clear_second_run]
  · rw [clear_second_run]
  · rw [clear_second_run]
    simp

theorem secretStep_events_congr (v x : InitWorld)
    (h1 : v.secretExists = x.secretExists)
    (h2 : v.randomSecret = x.randomSecret) :
    (secretStep v).2 = (secretStep x).2 := by
  unfold secretStep
  rw [h1, h2]
  by_cases hs : x.secretExists <;> simp [hs]

theorem accountStepAccounts_noflags (args : Args)
    (h : allAdminFlags args = false) (accounts : List Account) (i : Account) :
    accountStepAccounts accounts args i =
      accountStepAccounts accounts ⟨none, none, none⟩ i := by
  have hn : allAdminFlags ⟨none, none, none⟩ = false := rfl
  unfold accountStepAccounts
  rw [h, hn]
  simp

theorem accountStepEvents_noflags (args : Args)
    (h : allAdminFlags args = false) (accounts : List Account) :
    accountStepEvents accounts args =
      accountStepEvents accounts ⟨none, none, none⟩ := by
  have hn : allAdminFlags ⟨none, none, none⟩ = false := rfl
  unfold accountStepEvents
  rw [h, hn]
  simp

theorem accountStepEvents_no_super (args : Args)
    (h : allAdminFlags args = false) (accounts : List Account)
    (u p e : String) :
    Event.createSuperuser u p e ∉ accountStepEvents accounts args := by
  unfold accountStepEvents
  simp [h]

/-- C8: the output-suppression wrapper `quiet` restores the original output
targets on every exit path; when the wrapped call raises, the captured
buffer contents are flushed to the error log and the exception is
re-raised; when it succeeds, the captured contents are discarded silently. -/
theorem quiet_restores_and_flushes (s : Streams) (body : QuietBody) :
    (quiet s body).1 = ⟨.original, .original⟩ ∧
    (quiet s body).2 =
      (if body.raises then
         ([.logError body.outWritten, .logError body.errWritten], true)
       else ([], false)) := by
  unfold quiet
  by_cases h : body.raises <;> simp [h]

/-- C7: when the target SLS file does not exist, the salt step is a no-op
skip: no child process is spawned, no error is raised, only a DEBUG skip
message is logged. -/
theorem run_local_salt_skip (env : SaltEnv) (sls msg : String)
    (h : sls ∉ env.existingFiles) :
    run_local_salt env sls msg =
      ([.logDebug ("Skipping " ++ msg ++ " configuration, SLS not found")],
       none)
    ∧ ∀ p, Event.spawnSalt p ∉ (run_local_salt env sls msg).1 := by
  unfold run_local_salt
  simp [h]

/-- Witness for C7 at a concrete environment with no SLS files. -/
theorem run_local_salt_skip_witness :
    run_local_salt noSaltEnv POSTGRES_SLS "postgres" =
      ([.logDebug ("Skipping " ++ "postgres" ++ " configuration, SLS not found")],
       none)
    ∧ ∀ p, Event.spawnSalt p ∉ (run_local_salt noSaltEnv POSTGRES_SLS "postgres").1 :=
  run_local_salt_skip noSaltEnv POSTGRES_SLS "postgres" (by decide)

/-- C6 (amended): when the SLS file exists, the child's stdout and stderr
are logged at DEBUG unconditionally, before the exit status is checked; on
non-zero exit the step raises a `RuntimeError` whose message carries the
step description and the exit code (stdout and stderr are not attached to
the error). -/
theorem run_local_salt_spec (env : SaltEnv) (sls msg : String)
    (h : sls ∈ env.existingFiles) :
    run_local_salt env sls msg =
      ([.logInfo ("Starting/enabling " ++ msg ++ "..."),
        .spawnSalt sls,
        .logDebug (msg ++ " salt stdout: " ++ (env.run sls).2.1),
        .logDebug (msg ++ " salt stderr: " ++ (env.run sls).2.2)],
       if (env.run sls).1 = 0 then none
       else some (.runtimeError
         ("salt-call for " ++ msg ++ " failed with rc=" ++
            toString (env.run sls).1))) := by
  unfold run_local_salt
  simp [h]

/-- Witness for C6 at a concrete failing environment. -/
theorem run_local_salt_spec_witness :
    run_local_salt saltEnvOutA "f.sls" "m" =
      ([.logInfo ("Starting/enabling " ++ "m" ++ "..."),
        .spawnSalt "f.sls",
        .logDebug ("m" ++ " salt stdout: " ++ (saltEnvOutA.run "f.sls").2.1),
        .logDebug ("m" ++ " salt stderr: " ++ (saltEnvOutA.run "f.sls").2.2)],
       if (saltEnvOutA.run "f.sls").1 = 0 then none
       else some (.runtimeError
         ("salt-call for " ++ "m" ++ " failed with rc=" ++
            toString (saltEnvOutA.run "f.sls").1))) :=
  run_local_salt_spec saltEnvOutA "f.sls" "m" (by decide)

/-- C6 counterexample: two runs that differ only in the child's captured
stdout raise the very same error value, so the raised error does not carry
the captured stdout (or stderr); the claim that the structured error
carries stdout and stderr is false. -/
theorem run_local_salt_error_drops_output :
    (run_local_salt saltEnvOutA "f.sls" "m").2 =
      (run_local_salt saltEnvOutB "f.sls" "m").2
    ∧ (saltEnvOutA.run "f.sls").2.1 ≠ (saltEnvOutB.run "f.sls").2.1 := by
  decide

theorem filter_db_salt (env : SaltEnv) (sls msg : String) :
    List.filter isDbEvent (run_local_salt env sls msg).1 = [] :=
  salt_dbEventsOf env sls msg

theorem filter_db_secretStep (w : InitWorld) :
    List.filter isDbEvent (secretStep w).2 = [] :=
  secretStep_db w

theorem filter_db_dbStepEvents (tables : List String) :
    List.filter isDbEvent (dbStepEvents tables) =
      (match detect tables with
       | .EXISTING => [Event.upgradeHead]
       | .FRESH => [Event.createAll, Event.stampHead]) :=
  dbStepEvents_db tables

theorem filter_db_accountStepEvents (accounts : List Account) (args : Args) :
    List.filter isDbEvent (accountStepEvents accounts args) = [] :=
  accountStepEvents_db accounts args

theorem filter_db_chownEvents (cfg : Config) (pg : Nat × Nat) :
    List.filter isDbEvent (chownEvents cfg pg) = [] :=
  chownEvents_db cfg pg

/-- C1: in every run of `initialize` that reaches the schema step (the two
preceding salt steps did not raise), exactly one of the two mutually
exclusive schema branches executes, decided by the Migration State
Detector: when the version-marker table is present the detector yields
EXISTING and the only schema operation performed is the forward upgrade to
head (`createAll` and `stamp` never run); when it is absent the detector
yields FRESH and the schema operations are exactly `createAll` followed by
`stamp(head)`, with no historical migration replay (`upgrade` never runs). -/
theorem initialize_migration_branch (w : InitWorld) (args : Args)
    (hA : (run_local_salt w.saltEnv RELAX_SALT_PERMS_SLS "salt").2 = none)
    (hB : (run_local_salt w.saltEnv POSTGRES_SLS "postgres").2 = none) :
    (detect w.dbTables = .EXISTING →
       dbEventsOf (initializeCmd w args).2.1 = [.upgradeHead])
    ∧ (detect w.dbTables = .FRESH →
       dbEventsOf (initializeCmd w args).2.1 = [.createAll, .stampHead]) := by
  unfold initializeCmd
  simp only [hA, hB, Option.isSome_none, Bool.false_eq_true, if_false]
  constructor <;> intro hd <;>
    cases hpw : w.pwLookup <;>
      simp only [hpw] <;>
      (try split_ifs) <;>
      simp [dbEventsOf, List.filter_append, filter_db_salt,
        filter_db_secretStep, filter_db_dbStepEvents,
        filter_db_accountStepEvents, filter_db_chownEvents, hd, isDbEvent]

/-- Witness for C1 at a concrete world with an empty (FRESH) schema store
and no salt files present. -/
theorem initialize_migration_branch_witness :
    ((detect sampleWorld.dbTables = .EXISTING →
       dbEventsOf (initializeCmd sampleWorld ⟨none, none, none⟩).2.1 =
         [.upgradeHead])
    ∧ (detect sampleWorld.dbTables = .FRESH →
       dbEventsOf (initializeCmd sampleWorld ⟨none, none, none⟩).2.1 =
         [.createAll, .stampHead])) :=
  initialize_migration_branch sampleWorld ⟨none, none, none⟩
    (by decide) (by decide)

/-- C2: file existence is the sole gate for the secret key: a run of
`initialize` writes the secret-key file exactly when the file is absent,
and when the file already exists its contents are unchanged after the run
completes. -/
theorem initialize_secret_gate (w : InitWorld) (args : Args) :
    ((initializeCmd w args).2.1.any isWriteSecret = !w.secretExists)
    ∧ (initializeCmd w args).1.secretContents =
        (if w.secretExists then w.secretContents else w.randomSecret) := by
  constructor
  · unfold initializeCmd
    cases hpw : w.pwLookup <;>
      simp only [hpw] <;>
      split_ifs <;>
      simp [List.any_append, salt_no_writeSecret, secretStep_any_write,
        dbStepEvents_any_write, accountStepEvents_any_write,
        chownEvents_any_write, isWriteSecret]
  · unfold initializeCmd
    cases hpw : w.pwLookup <;>
      simp only [hpw] <;>
      split_ifs <;>
      simp_all [secretStep_secretContents]

/-- World after a run of `initialize` whose two leading salt steps did not
raise: the secret step applies, the schema step rewrites the store, and the
account step rewrites the accounts; later steps do not mutate the world. -/
theorem initializeCmd_world_success (w : InitWorld) (args : Args)
    (hA : (run_local_salt w.saltEnv RELAX_SALT_PERMS_SLS "salt").2 = none)
    (hB : (run_local_salt w.saltEnv POSTGRES_SLS "postgres").2 = none) :
    (initializeCmd w args).1 =
      { (secretStep w).1 with
          dbTables := dbStepTables w.dbTables w.declaredTables,
          accounts :=
            accountStepAccounts w.accounts args w.interactiveAccount } := by
  unfold initializeCmd
  simp only [hA, hB, Option.isSome_none, Bool.false_eq_true, if_false]
  cases hpw : w.pwLookup <;>
    simp only [hpw] <;>
    (try split_ifs) <;>
    simp [secretStep_accounts]

/-- C3: with all three admin flags supplied and no account of that username
present, `initialize` creates exactly one account with that username; a
second identical run creates no further account and leaves the accounts —
including the credentials of the one just created — unchanged. -/
theorem initialize_admin_account (w : InitWorld) (u p e : String)
    (hu : u ≠ "") (hp : p ≠ "") (he : e ≠ "")
    (hnone : usersNamed w.accounts u = [])
    (hA : (run_local_salt w.saltEnv RELAX_SALT_PERMS_SLS "salt").2 = none)
    (hB : (run_local_salt w.saltEnv POSTGRES_SLS "postgres").2 = none) :
    usersNamed (initializeCmd w ⟨some u, some p, some e⟩).1.accounts u =
      [⟨u, p, e⟩]
    ∧ (initializeCmd (initializeCmd w ⟨some u, some p, some e⟩).1
         ⟨some u, some p, some e⟩).1.accounts =
        (initializeCmd w ⟨some u, some p, some e⟩).1.accounts := by
  have h1 := initializeCmd_world_success w ⟨some u, some p, some e⟩ hA hB
  have hflags : allAdminFlags ⟨some u, some p, some e⟩ = true := by
    simp [allAdminFlags, truthy, hu, hp, he]
  have hempty : (usersNamed w.accounts
      ((⟨some u, some p, some e⟩ : Args).admin_username.getD "")).isEmpty = true := by
    simp [hnone]
  have hacc1 : (initializeCmd w ⟨some u, some p, some e⟩).1.accounts =
      w.accounts ++ [⟨u, p, e⟩] := by
    rw [h1]
    show accountStepAccounts w.accounts ⟨some u, some p, some e⟩
        w.interactiveAccount = _
    simp [accountStepAccounts, hflags, hempty, hnone]
  have hfull : usersNamed
      ((initializeCmd w ⟨some u, some p, some e⟩).1.accounts) u = [⟨u, p, e⟩] := by
    rw [hacc1]
    unfold usersNamed at hnone ⊢
    simp [List.filter_append, hnone]
  constructor
  · exact hfull
  · have hsalt : (initializeCmd w ⟨some u, some p, some e⟩).1.saltEnv =
        w.saltEnv := by
      rw [h1]
      show (secretStep w).1.saltEnv = w.saltEnv
      exact secretStep_saltEnv w
    have hA' : (run_local_salt
        (initializeCmd w ⟨some u, some p, some e⟩).1.saltEnv
        RELAX_SALT_PERMS_SLS "salt").2 = none := by
      rw [hsalt]; exact hA
    have hB' : (run_local_salt
        (initializeCmd w ⟨some u, some p, some e⟩).1.saltEnv
        POSTGRES_SLS "postgres").2 = none := by
      rw [hsalt]; exact hB
    have h2 := initializeCmd_world_success
      (initializeCmd w ⟨some u, some p, some e⟩).1
      ⟨some u, some p, some e⟩ hA' hB'
    rw [h2]
    show accountStepAccounts
        (initializeCmd w ⟨some u, some p, some e⟩).1.accounts
        ⟨some u, some p, some e⟩
        (initializeCmd w ⟨some u, some p, some e⟩).1.interactiveAccount = _
    have hne : (usersNamed
        ((initializeCmd w ⟨some u, some p, some e⟩).1.accounts)
        ((⟨some u, some p, some e⟩ : Args).admin_username.getD "")).isEmpty =
        false := by
      simp only [Option.getD_some]
      rw [hfull]
      rfl
    simp [accountStepAccounts, hflags, hne, hfull]

/-- Witness for C3 at a concrete world with no accounts. -/
theorem initialize_admin_account_witness :
    usersNamed (initializeCmd sampleWorld
        ⟨some "alice", some "secretpw", some "alice@example.com"⟩).1.accounts
        "alice" =
      [⟨"alice", "secretpw", "alice@example.com"⟩]
    ∧ (initializeCmd (initializeCmd sampleWorld
          ⟨some "alice", some "secretpw", some "alice@example.com"⟩).1
         ⟨some "alice", some "secretpw", some "alice@example.com"⟩).1.accounts =
        (initializeCmd sampleWorld
          ⟨some "alice", some "secretpw", some "alice@example.com"⟩).1.accounts :=
  initialize_admin_account sampleWorld "alice" "secretpw" "alice@example.com"
    (by decide) (by decide) (by decide) (by decide) (by decide) (by decide)

/-- C5 counterexample: the debug file is written at
`/tmp/<timestamp>.txt`; for the tool name `calamari-ctl` this differs from
the claimed `/tmp/<toolname>.<timestamp>.txt` pattern. -/
theorem debug_filename_has_no_toolname :
    debug_filename "2014-01-01_0000" = "/tmp/2014-01-01_0000.txt"
    ∧ debug_filename "2014-01-01_0000" ≠
        spec_debug_filename "calamari-ctl" "2014-01-01_0000" := by
  constructor
  · rfl
  · decide

/-- C5 (amended): when an exception escapes a subcommand, the handler
writes a diagnostic file at `/tmp/<UTC timestamp, minute precision>.txt`
(no tool-name component) whose structured content has exactly the keys
`argv` (the ordered invocation argument list), `log` (the full verbose
log) and `backtrace` (the formatted backtrace). -/
theorem main_handler_bundle (result : Option CtlError) (argv : List String)
    (logContents timestamp : String) (e : CtlError) (h : result = some e) :
    main_handler result argv logContents timestamp =
      some ("/tmp/" ++ timestamp ++ ".txt",
            [("argv", .arr argv), ("log", .str logContents),
             ("backtrace", .str (format_exc e))]) := by
  subst h
  rfl

/-- C9 counterexample: in a concrete run whose restart invocation exits 1,
no exception is raised and the log-message subtrace — which does contain
the restart invocation itself — is identical to that of the run whose
restart exits 0: the failure is not logged, contrary to the claim. -/
theorem restart_failure_not_logged :
    Event.restartCall 1 ∈
      (initializeCmd { sampleWorld with restartExit := 1 }
        ⟨none, none, none⟩).2.1
    ∧ (initializeCmd { sampleWorld with restartExit := 1 }
        ⟨none, none, none⟩).2.2 = none
    ∧ logsOf (initializeCmd { sampleWorld with restartExit := 1 }
        ⟨none, none, none⟩).2.1 =
      logsOf (initializeCmd sampleWorld ⟨none, none, none⟩).2.1 := by
  refine ⟨?_, ?_, ?_⟩ <;> decide

/-- C9 (amended): the final service-restart step is best-effort in that a
failing restart invocation is not re-raised (the run ends with no
exception, having logged Complete.) — but the failure is also not logged:
the log subtrace is identical to that of a run whose restart succeeds. -/
theorem initialize_restart_best_effort (w : InitWorld) (args : Args)
    (pg : Nat × Nat)
    (hA : (run_local_salt w.saltEnv RELAX_SALT_PERMS_SLS "salt").2 = none)
    (hB : (run_local_salt w.saltEnv POSTGRES_SLS "postgres").2 = none)
    (hpw : w.pwLookup = some pg)
    (hC : (run_local_salt w.saltEnv SERVICES_SLS "services").2 = none) :
    (initializeCmd w args).2.2 = none
    ∧ Event.logInfo "Complete." ∈ (initializeCmd w args).2.1
    ∧ logsOf (initializeCmd w args).2.1 =
        logsOf (initializeCmd { w with restartExit := 0 } args).2.1 := by
  refine ⟨?_, ?_, ?_⟩
  · unfold initializeCmd
    simp [hA, hB, hpw, hC]
  · unfold initializeCmd
    simp [hA, hB, hpw, hC]
  · unfold initializeCmd
    simp [hA, hB, hpw, hC, logsOf, List.filter_append,
      secretStep_accounts, isLogEvent]
    congr 1
    exact secretStep_events_congr _ _ rfl rfl

/-- Witness for C9 at a concrete world. -/
theorem initialize_restart_best_effort_witness :
    (initializeCmd sampleWorld ⟨none, none, none⟩).2.2 = none
    ∧ Event.logInfo "Complete." ∈
        (initializeCmd sampleWorld ⟨none, none, none⟩).2.1
    ∧ logsOf (initializeCmd sampleWorld ⟨none, none, none⟩).2.1 =
        logsOf (initializeCmd { sampleWorld with restartExit := 0 }
          ⟨none, none, none⟩).2.1 :=
  initialize_restart_best_effort sampleWorld ⟨none, none, none⟩ (48, 48)
    (by decide) (by decide) (by decide) (by decide)

/-- C10: when only a proper subset of the three admin flags is supplied
(so not all three are truthy), the run is exactly the run with no admin
flags: no non-interactive account creation is attempted, and the
interactive creation flow runs if and only if zero accounts exist. -/
theorem initialize_partial_admin_flags (w : InitWorld) (args : Args)
    (hsub : allAdminFlags args = false)
    (hA : (run_local_salt w.saltEnv RELAX_SALT_PERMS_SLS "salt").2 = none)
    (hB : (run_local_salt w.saltEnv POSTGRES_SLS "postgres").2 = none) :
    initializeCmd w args = initializeCmd w ⟨none, none, none⟩
    ∧ (∀ u p e, Event.createSuperuser u p e ∉ (initializeCmd w args).2.1)
    ∧ (Event.interactiveCreateSuperuser ∈ (initializeCmd w args).2.1 ↔
        w.accounts.length = 0) := by
  refine ⟨?_, ?_, ?_⟩
  · simp only [initializeCmd, accountStepAccounts_noflags args hsub,
      accountStepEvents_noflags args hsub]
  · intro u p e
    unfold initializeCmd
    cases hpw : w.pwLookup <;>
      simp only [hpw] <;>
      (try split_ifs) <;>
      simp [salt_no_createSuperuser, secretStep_no_createSuperuser,
        dbStepEvents_no_createSuperuser, chownEvents_no_createSuperuser,
        accountStepEvents_no_super args hsub]
  · unfold initializeCmd
    simp only [hA, hB, Option.isSome_none, Bool.false_eq_true, if_false]
    cases hpw : w.pwLookup <;>
      simp only [hpw] <;>
      (try split_ifs) <;>
      simp [salt_no_interactive, secretStep_no_interactive,
        dbStepEvents_no_interactive, chownEvents_no_interactive,
        accountStepEvents_interactive, secretStep_accounts, hsub]

/-- Witness for C10 with only the username flag supplied. -/
theorem initialize_partial_admin_flags_witness :
    initializeCmd sampleWorld ⟨some "alice", none, none⟩ =
      initializeCmd sampleWorld ⟨none, none, none⟩
    ∧ (∀ u p e, Event.createSuperuser u p e ∉
        (initializeCmd sampleWorld ⟨some "alice", none, none⟩).2.1)
    ∧ (Event.interactiveCreateSuperuser ∈
        (initializeCmd sampleWorld ⟨some "alice", none, none⟩).2.1 ↔
        sampleWorld.accounts.length = 0) :=
  initialize_partial_admin_flags sampleWorld ⟨some "alice", none, none⟩
    (by decide) (by decide) (by decide)

/-- Witness for C5 at a concrete escaped error. -/
theorem main_handler_bundle_witness :
    main_handler (some (.runtimeError "boom")) ["calamari-ctl", "initialize"]
        "verbose log" "2014-01-01_0000" =
      some ("/tmp/" ++ "2014-01-01_0000" ++ ".txt",
            [("argv", .arr ["calamari-ctl", "initialize"]),
             ("log", .str "verbose log"),
             ("backtrace", .str (format_exc (.runtimeError "boom")))]) :=
  main_handler_bundle (some (.runtimeError "boom"))
    ["calamari-ctl", "initialize"] "verbose log" "2014-01-01_0000"
    (.runtimeError "boom") rfl

end Calamari
